import Mathlib

/-!
Verification of the jina-mcp-tools MCP server (src/index.js) against its
specification.  The JavaScript source is shallowly embedded: JavaScript
values flowing through the handlers are modelled by the inductive type
Json below, the header records passed to fetch are association lists whose
values are Option String (none models a JavaScript undefined value), and
each tool handler is a total function from the outcome of its single
outbound fetch call to the result envelope it hands back to the transport.
-/

/-- A JavaScript value as it occurs in this program: JSON data parsed from
upstream bodies plus the undefined value produced by absent-property
access.  Numbers are modelled as integers; no claim involves fractional
numeric payloads. -/
inductive Json where
  | undefined
  | null
  | bool (b : Bool)
  | num (n : Int)
  | str (s : String)
  | arr (elems : List Json)
  | obj (fields : List (String × Json))

/-- JavaScript truthiness of a value (ToBoolean).  Empty arrays and empty
objects are truthy; undefined, null, false, 0 and the empty string are
falsy. -/
def jsTruthy : Json → Bool
  | .undefined => false
  | .null => false
  | .bool b => b
  | .num n => n != 0
  | .str s => s != ""
  | .arr _ => true
  | .obj _ => true

/-- JavaScript a || b. -/
def jsOr (a b : Json) : Json :=
  if jsTruthy a then a else b

/-- Property access o[k] on a non-null value: a lookup on objects,
undefined on every other receiver.  Object keys are assumed distinct, as
they are in every object this program builds or parses. -/
def jsGet : Json → String → Json
  | .obj fields, k =>
    match fields.lookup k with
    | some v => v
    | none => .undefined
  | _, _ => .undefined

mutual

/-- String interpolation of a JavaScript value inside a template literal
(ToString).  Arrays join their elements with commas, objects print as
[object Object]. -/
def jsToString : Json → String
  | .undefined => "undefined"
  | .null => "null"
  | .bool b => if b then "true" else "false"
  | .num n => toString n
  | .str s => s
  | .arr xs => String.intercalate "," (jsToStringElems xs)
  | .obj _ => "[object Object]"

/-- Element conversions for Array.prototype.toString: null and undefined
elements become empty strings. -/
def jsToStringElems : List Json → List String
  | [] => []
  | x :: xs =>
    (match x with
     | .undefined => ""
     | .null => ""
     | y => jsToString y) :: jsToStringElems xs

end

/-- JSON string quoting as performed by JSON.stringify. -/
def jsonQuote (s : String) : String :=
  let esc (c : Char) : String :=
    if c = '"' then "\\\""
    else if c = '\\' then "\\\\"
    else if c = '\n' then "\\n"
    else if c = '\r' then "\\r"
    else if c = '\t' then "\\t"
    else if c = '\x08' then "\\b"
    else if c = '\x0c' then "\\f"
    else if c.toNat < 32 then
      "\\u00" ++ String.mk [Nat.digitChar (c.toNat / 16), Nat.digitChar (c.toNat % 16)]
    else String.singleton c
  "\"" ++ String.join (s.toList.map esc) ++ "\""

mutual

/-- JSON.stringify(v, null, gap) at the given accumulated indentation.
Returns none exactly when the value is undefined, which JSON.stringify
leaves out (this case is unreachable for values produced by JSON.parse). -/
def jsonStringifyAt (gap indent : String) : Json → Option String
  | .undefined => none
  | .null => some "null"
  | .bool b => some (if b then "true" else "false")
  | .num n => some (toString n)
  | .str s => some (jsonQuote s)
  | .arr [] => some "[]"
  | .arr (x :: xs) =>
    let ind := indent ++ gap
    let items := jsonStringifyElems gap ind (x :: xs)
    some ("[\n" ++ ind ++ String.intercalate (",\n" ++ ind) items ++ "\n" ++ indent ++ "]")
  | .obj fields =>
    let ind := indent ++ gap
    match jsonStringifyMembers gap ind fields with
    | [] => some "\x7b\x7d"
    | items => some ("\x7b\n" ++ ind ++ String.intercalate (",\n" ++ ind) items ++ "\n" ++ indent ++ "\x7d")

/-- Array elements: an undefined element is serialized as null. -/
def jsonStringifyElems (gap ind : String) : List Json → List String
  | [] => []
  | x :: xs =>
    (match jsonStringifyAt gap ind x with
     | some s => s
     | none => "null") :: jsonStringifyElems gap ind xs

/-- Object members: members whose value serializes to none are skipped. -/
def jsonStringifyMembers (gap ind : String) : List (String × Json) → List String
  | [] => []
  | (k, v) :: fs =>
    match jsonStringifyAt gap ind v with
    | some s => (jsonQuote k ++ ": " ++ s) :: jsonStringifyMembers gap ind fs
    | none => jsonStringifyMembers gap ind fs

end

/-- JSON.stringify(data, null, 2) as used by the reader fallback.  The
getD branch is unreachable: the argument always comes from JSON.parse and
is therefore never undefined. -/
def jsonStringify2 (j : Json) : String :=
  (jsonStringifyAt "  " "" j).getD "undefined"

/-! ### Credential resolver and header builder (src/index.js lines 9 to 23) -/

/-- A header record as passed to fetch: insertion-ordered entries whose
values are strings or (value none) the JavaScript undefined value. -/
abbrev Headers := List (String × Option String)

/-- Lookup of a header entry: none when the key is absent, some v when it
is present with value v (v = none modelling undefined). -/
def hfind (hs : Headers) (k : String) : Option (Option String) :=
  hs.lookup k

/-- JavaScript property assignment hs[k] = v on a header record: updates
the entry in place (keeping its position) when the key exists, otherwise
appends it at the end.  Keys are unique in every record this program
builds, so replacing the first occurrence is JavaScript assignment. -/
def hset : Headers → String → Option String → Headers
  | [], k, v => [(k, v)]
  | p :: t, k, v => if p.1 = k then (k, v) :: t else p :: hset t k v

/-- getJinaApiKey: process.env.JINA_API_KEY || null.  The process
environment entry is modelled as an Option String argument; an empty
string is falsy, so it yields null exactly like an unset entry. -/
def getJinaApiKey (env : Option String) : Option String :=
  match env with
  | some s => if s = "" then none else some s
  | none => none

/-- createHeaders: copies the base headers and, when the resolved API key
is truthy, assigns an Authorization entry carrying the bearer token. -/
def createHeaders (env : Option String) (baseHeaders : Headers) : Headers :=
  match getJinaApiKey env with
  | some apiKey => hset baseHeaders "Authorization" (some ("Bearer " ++ apiKey))
  | none => baseHeaders

/-! ### Result envelopes and fetch outcomes -/

/-- The result envelope a handler returns to the transport: the text of
its single content block, and the isError field (none when the field is
not set, as on every success path). -/
structure Envelope where
  text : Json
  isError : Option Bool

/-- The catch-all branch of both handlers. -/
def errEnv (msg : String) : Envelope :=
  { text := .str ("Error: " ++ msg), isError := some true }

/-- response.ok of the fetch API: status in the 2xx range. -/
def statusOk (status : Nat) : Bool :=
  200 ≤ status && status < 300

/-- The terminal outcome of the one outbound fetch of a handler: either
the fetch promise rejected (network failure, message msg), or a response
arrived with the given status and body text.  parsed is the result of
JSON-parsing the body text (response.json() in the reader, JSON.parse in
the search handler), carried alongside so the embedding does not need a
JSON parser; an .error msg is a parse failure with exception message
msg. -/
inductive FetchOutcome where
  | fail (msg : String)
  | resp (status : Nat) (body : String) (parsed : Except String Json)

/-! ### Reader tool (src/index.js lines 33 to 91) -/

/-- The format enumeration of the jina_reader input schema. -/
inductive ReaderFormat where
  | Default
  | Markdown
  | HTML
  | Text
  | Screenshot
  | Pageshot
deriving Repr, DecidableEq

/-- The literal string of a format enumeration member. -/
def formatName : ReaderFormat → String
  | .Default => "Default"
  | .Markdown => "Markdown"
  | .HTML => "HTML"
  | .Text => "Text"
  | .Screenshot => "Screenshot"
  | .Pageshot => "Pageshot"

/-- The validated input record of a jina_reader invocation, with the
schema defaults. -/
structure ReaderArgs where
  url : String
  format : ReaderFormat := .Default
  withLinks : Bool := false
  withImages : Bool := false
  useReaderLM : Bool := false

/-- The object literal of base headers the reader handler builds.  Note
the X-Respond-With entry: its value is the undefined value (none) when
useReaderLM is false — the key itself is always present in the record the
source builds. -/
def readerBaseHeaders (args : ReaderArgs) : Headers :=
  [
    ("Content-Type", some "application/json"),
    ("Accept", some "application/json"),
    ("X-With-Links-Summary", some (if args.withLinks then "true" else "false")),
    ("X-With-Images-Summary", some (if args.withImages then "true" else "false")),
    ("X-Return-Format", some (formatName args.format).toLower),
    ("X-Respond-With", if args.useReaderLM then some "readerlm-v2" else none),
    ("X-With-Generated-Alt", some "true"),
    ("X-With-Iframe", some "true"),
    ("X-With-Shadow-Dom", some "true")
  ]

/-- The header record the reader handler passes to fetch. -/
def readerHeaders (args : ReaderArgs) (env : Option String) : Headers :=
  createHeaders env (readerBaseHeaders args)

/-- data.data?.content: undefined when data.data is null or undefined,
otherwise the content property of data.data. -/
def contentOf (data : Json) : Json :=
  match jsGet data "data" with
  | .null => .undefined
  | .undefined => .undefined
  | d => jsGet d "content"

/-- The success-path text of the reader handler,
data.data?.content || JSON.stringify(data, null, 2).  Accessing the data
property of a null receiver throws a TypeError (the message below is the
one V8 raises), which the surrounding try/catch turns into an error
envelope. -/
def readerText (data : Json) : Except String Json :=
  match data with
  | .null => .error "Cannot read properties of null (reading 'data')"
  | _ => .ok (jsOr (contentOf data) (.str (jsonStringify2 data)))

/-- The jina_reader handler as a function of the fetch outcome.  The
validated arguments do not influence the response processing (they only
shape the outbound request), hence the unused first parameter. -/
def jinaReader (_args : ReaderArgs) (_env : Option String) (out : FetchOutcome) : Envelope :=
  match out with
  | .fail msg => errEnv msg
  | .resp status body parsed =>
    if statusOk status then
      match parsed with
      | .error msg => errEnv msg
      | .ok data =>
        match readerText data with
        | .ok t => { text := t, isError := none }
        | .error msg => errEnv msg
    else
      errEnv ("Jina Reader API error (" ++ toString status ++ "): " ++ body)

/-! ### Search tool (src/index.js lines 94 to 178) -/

/-- The returnFormat enumeration of the jina_search input schema. -/
inductive ReturnFormat where
  | markdown
  | text
  | html
deriving Repr, DecidableEq

/-- The validated input record of a jina_search invocation, with the
schema defaults.  count is a number with no positivity constraint in the
schema; integral values suffice for every claim. -/
structure SearchArgs where
  query : String
  count : Int := 5
  returnFormat : ReturnFormat := .markdown
  siteFilter : Option String := none

/-- The base headers the search handler builds: the three literal
entries, then an X-Site entry assigned only when siteFilter is truthy. -/
def searchBaseHeaders (args : SearchArgs) : Headers :=
  let baseHeaders : Headers := [
    ("Accept", some "application/json"),
    ("X-Respond-With", some "no-content"),
    ("X-With-Favicons", some "true")
  ]
  match args.siteFilter with
  | some sf => if sf != "" then hset baseHeaders "X-Site" (some ("https://" ++ sf)) else baseHeaders
  | none => baseHeaders

/-- The header record the search handler passes to fetch. -/
def searchHeaders (args : SearchArgs) (env : Option String) : Headers :=
  createHeaders env (searchBaseHeaders args)

/-- The truncation step: results.slice(0, count) exactly when count is
truthy, positive and the list is longer than count. -/
def truncateResults (count : Int) (results : List Json) : List Json :=
  if count != 0 && 0 < count && count < (results.length : Int) then
    results.take count.toNat
  else
    results

/-- The per-item cleanup: if (result.usage) delete result.usage. -/
def stripUsage (result : Json) : Json :=
  match result with
  | .obj fields =>
    if jsTruthy (jsGet (.obj fields) "usage") then
      .obj (fields.filter (fun p => p.1 ≠ "usage"))
    else
      .obj fields
  | r => r

/-- The date fragment shared by all three renderers:
result.date ? (Date: result.date) : the empty string. -/
def datePart (result : Json) : String :=
  if jsTruthy (jsGet result "date") then
    "Date: " ++ jsToString (jsGet result "date")
  else
    ""

/-- One markdown item: index plus one, bold title or Untitled, then url,
description and date fragment on three-space-indented lines, each item
ending in a newline. -/
def mdItem (index : Nat) (result : Json) : String :=
  toString (index + 1) ++ ". **" ++ jsToString (jsOr (jsGet result "title") (.str "Untitled"))
    ++ "**\n   " ++ jsToString (jsOr (jsGet result "url") (.str ""))
    ++ "\n   " ++ jsToString (jsOr (jsGet result "description") (.str ""))
    ++ "\n   " ++ datePart result ++ "\n"

/-- The markdown renderer: items joined by a single newline. -/
def mdFormat (results : List Json) : String :=
  String.intercalate "\n" (results.mapIdx mdItem)

/-- One html item, with the literal line breaks and eleven-space
indentation the source template carries. -/
def htmlItem (result : Json) : String :=
  "<li><strong>" ++ jsToString (jsOr (jsGet result "title") (.str "Untitled"))
    ++ "</strong><br>\n           <a href=\"" ++ jsToString (jsOr (jsGet result "url") (.str ""))
    ++ "\">" ++ jsToString (jsOr (jsGet result "url") (.str ""))
    ++ "</a><br>\n           " ++ jsToString (jsOr (jsGet result "description") (.str ""))
    ++ "<br>\n           " ++ datePart result ++ "</li>"

/-- The html renderer: an ol element wrapping the items joined with no
separator. -/
def htmlFormat (results : List Json) : String :=
  "<ol>" ++ String.join (results.map htmlItem) ++ "</ol>"

/-- One plain-text item: like markdown without the bold markers and
without the trailing newline. -/
def textItem (index : Nat) (result : Json) : String :=
  toString (index + 1) ++ ". " ++ jsToString (jsOr (jsGet result "title") (.str "Untitled"))
    ++ "\n   " ++ jsToString (jsOr (jsGet result "url") (.str ""))
    ++ "\n   " ++ jsToString (jsOr (jsGet result "description") (.str ""))
    ++ "\n   " ++ datePart result

/-- The plain-text renderer (the else branch of the format dispatch):
items joined by a blank line. -/
def textFormat (results : List Json) : String :=
  String.intercalate "\n\n" (results.mapIdx textItem)

/-- The renderer dispatch on returnFormat. -/
def formatResults (returnFormat : ReturnFormat) (results : List Json) : String :=
  match returnFormat with
  | .markdown => mdFormat results
  | .html => htmlFormat results
  | .text => textFormat results

/-- The success-path body of the search handler: data.data || [] for the
result list, truncation, usage stripping, then the renderer dispatch.  A
null parsed body throws on the data property access; a truthy non-array
data.data value throws when .map is called on it (strings survive length
and slice but have no map; other values fail the length comparison and
then have no map). -/
def searchText (args : SearchArgs) (data : Json) : Except String String :=
  match data with
  | .null => .error "Cannot read properties of null (reading 'data')"
  | _ =>
    match jsOr (jsGet data "data") (.arr []) with
    | .arr l =>
      .ok (formatResults args.returnFormat ((truncateResults args.count l).map stripUsage))
    | _ => .error "results.map is not a function"

/-- The jina_search handler as a function of the fetch outcome. -/
def jinaSearch (args : SearchArgs) (_env : Option String) (out : FetchOutcome) : Envelope :=
  match out with
  | .fail msg => errEnv msg
  | .resp status body parsed =>
    if statusOk status then
      match parsed with
      | .error msg => errEnv msg
      | .ok data =>
        match searchText args data with
        | .ok s => { text := .str s, isError := none }
        | .error msg => errEnv msg
    else
      errEnv ("Jina Search API error (" ++ toString status ++ "): " ++ body)

/-! ### Concrete fixtures used by witnesses and counterexamples -/

/-- A jina_reader invocation with every optional field at its schema
default. -/
def rargsEx : ReaderArgs := { url := "https://example.com" }

/-- A jina_reader invocation with useReaderLM switched on. -/
def rargsLM : ReaderArgs := { url := "https://example.com", useReaderLM := true }

/-- A jina_search invocation with every optional field at its schema
default. -/
def sargsEx : SearchArgs := { query := "q" }

/-- The stubbed upstream reader body of the end-to-end example in the
specification. -/
def helloData : Json := .obj [("data", .obj [("content", .str "Hello")])]

/-- A reader body whose nested content field is present but empty. -/
def emptyContentData : Json := .obj [("data", .obj [("content", .str "")])]

/-- A search result item lacking a date field. -/
def itemND : Json := .obj [("title", .str "T"), ("url", .str "https://e.x"), ("description", .str "d")]

/-- The same search result item with date 2024-01-01. -/
def itemD : Json :=
  .obj [("title", .str "T"), ("url", .str "https://e.x"), ("description", .str "d"), ("date", .str "2024-01-01")]

/-- Assignment makes the assigned key map to the assigned value. -/
theorem hfind_hset_same (hs : Headers) (k : String) (v : Option String) :
    hfind (hset hs k v) k = some v := by
  induction hs with
  | nil => simp [hset, hfind, List.lookup]
  | cons p t ih =>
    by_cases hp : p.1 = k
    · simp [hset, hp, hfind, List.lookup]
    · have hb : (k == p.1) = false := beq_eq_false_iff_ne.mpr (fun h => hp h.symm)
      simp only [hset, hp, if_false, hfind, List.lookup, hb]
      exact ih

/-- Assignment leaves every other key unchanged. -/
theorem hfind_hset_other (hs : Headers) (k k2 : String) (v : Option String) (hk : k2 ≠ k) :
    hfind (hset hs k v) k2 = hfind hs k2 := by
  have h1 : (k2 == k) = false := beq_eq_false_iff_ne.mpr hk
  induction hs with
  | nil => simp [hset, hfind, List.lookup, h1]
  | cons p t ih =>
    by_cases hp : p.1 = k
    · have h2 : (k2 == p.1) = false := by rw [hp]; exact h1
      simp [hset, hp, hfind, List.lookup, h1, h2]
    · simp only [hset, hp, if_false, hfind, List.lookup]
      cases hb : k2 == p.1
      · exact ih
      · rfl

/-- With no resolved credential, createHeaders returns the base record
as it is. -/
theorem createHeaders_unset (base : Headers) (env : Option String)
    (h : getJinaApiKey env = none) : createHeaders env base = base := by
  simp [createHeaders, h]

/-- With a resolved credential, createHeaders is exactly the bearer
assignment on the base record. -/
theorem createHeaders_set (base : Headers) (env : Option String) (v : String)
    (h : getJinaApiKey env = some v) :
    createHeaders env base = hset base "Authorization" (some ("Bearer " ++ v)) := by
  simp [createHeaders, h]

/-- The reader base headers never carry an Authorization entry. -/
theorem readerBase_no_auth (args : ReaderArgs) :
    hfind (readerBaseHeaders args) "Authorization" = none := by
  simp [readerBaseHeaders, hfind, List.lookup]

/-- The search base headers never carry an Authorization entry, whether
or not an X-Site entry was assigned. -/
theorem searchBase_no_auth (args : SearchArgs) :
    hfind (searchBaseHeaders args) "Authorization" = none := by
  unfold searchBaseHeaders
  cases args.siteFilter with
  | none => simp [hfind, List.lookup]
  | some sf =>
    by_cases hsf : sf = ""
    · simp [hsf, hfind, List.lookup]
    · have h : (sf != "") = true := by simp [hsf]
      simp only [h, if_true]
      rw [hfind_hset_other _ _ _ _ (by decide)]
      simp [hfind, List.lookup]

/-! ### Claim theorems -/

/-- C1: for every tool invocation of jina_reader or jina_search, a non-2xx
upstream response yields a returned (not thrown) envelope with isError
true whose message carries the numeric status code and the raw body text,
and a network failure or a JSON parse failure likewise yields an isError
envelope carrying the exception message; both handlers are total
functions of the fetch outcome, so the transport never observes a thrown
fault. -/
theorem tool_errors_become_envelopes (rargs : ReaderArgs) (sargs : SearchArgs)
    (env : Option String) (status : Nat) (hbad : statusOk status = false)
    (body msg : String) (parsed : Except String Json) :
    jinaReader rargs env (.resp status body parsed) =
      { text := .str ("Error: " ++ ("Jina Reader API error (" ++ toString status ++ "): " ++ body)),
        isError := some true } ∧
    jinaSearch sargs env (.resp status body parsed) =
      { text := .str ("Error: " ++ ("Jina Search API error (" ++ toString status ++ "): " ++ body)),
        isError := some true } ∧
    jinaReader rargs env (.fail msg) =
      { text := .str ("Error: " ++ msg), isError := some true } ∧
    jinaSearch sargs env (.fail msg) =
      { text := .str ("Error: " ++ msg), isError := some true } ∧
    (∀ status2 body2, statusOk status2 = true →
      jinaReader rargs env (.resp status2 body2 (.error msg)) =
        { text := .str ("Error: " ++ msg), isError := some true } ∧
      jinaSearch sargs env (.resp status2 body2 (.error msg)) =
        { text := .str ("Error: " ++ msg), isError := some true }) := by
  refine ⟨?_, ?_, rfl, rfl, ?_⟩
  · simp [jinaReader, hbad, errEnv]
  · simp [jinaSearch, hbad, errEnv]
  · intro status2 body2 hok
    constructor
    · simp [jinaReader, hok, errEnv]
    · simp [jinaSearch, hok, errEnv]

/-- C1 witness: a 404 with body not found becomes the reader error
envelope, and a search body that fails to parse becomes an envelope
carrying the parse exception message. -/
theorem tool_errors_become_envelopes_witness :
    jinaReader rargsEx none (.resp 404 "not found" (.ok .null)) =
      { text := .str "Error: Jina Reader API error (404): not found", isError := some true } ∧
    jinaSearch sargsEx none (.resp 200 "bad json" (.error "Unexpected token b in JSON at position 0")) =
      { text := .str "Error: Unexpected token b in JSON at position 0", isError := some true } := by
  constructor
  · exact (tool_errors_become_envelopes rargsEx sargsEx none 404 (by decide) "not found" "x" (.ok .null)).1
  · exact ((tool_errors_become_envelopes rargsEx sargsEx none 404 (by decide) "bad"
      "Unexpected token b in JSON at position 0" (.error "irrelevant")).2.2.2.2 200 "bad json" rfl).2

/-- C2 counterexample: a retained item lacking a date does render a
blank placeholder line.  In markdown the item output ends with a line
holding exactly three spaces (the indentation written before the empty
date fragment), and the text and html renderers keep the analogous
trailing whitespace, refuting the claim that not even a blank
placeholder line remains. -/
theorem search_dateless_blank_placeholder :
    jsGet itemND "date" = .undefined ∧
    mdFormat [itemND] = "1. **T**\n   https://e.x\n   d" ++ "\n   \n" ∧
    textFormat [itemND] = "1. T\n   https://e.x\n   d" ++ "\n   " ∧
    htmlFormat [itemND] =
      "<ol><li><strong>T</strong><br>\n           <a href=\"https://e.x\">https://e.x</a><br>\n           d<br>\n           </li></ol>" :=
  ⟨rfl, rfl, rfl, rfl⟩

/-- C2 amended: an item lacking a date renders an empty date fragment in
every renderer, so no Date: text is produced for it, but the surrounding
placeholder whitespace of the template remains (a whitespace-only line in
markdown and text, trailing spaces before the closing li tag in html);
an item with date 2024-01-01 renders the fragment Date: 2024-01-01. -/
theorem search_date_line_rendering (r s : Json) (n : Nat)
    (hr : jsGet r "date" = .undefined)
    (hs : jsGet s "date" = .str "2024-01-01") :
    datePart r = "" ∧
    datePart s = "Date: 2024-01-01" ∧
    mdItem n r = toString (n + 1) ++ ". **" ++ jsToString (jsOr (jsGet r "title") (.str "Untitled"))
      ++ "**\n   " ++ jsToString (jsOr (jsGet r "url") (.str ""))
      ++ "\n   " ++ jsToString (jsOr (jsGet r "description") (.str ""))
      ++ "\n   " ++ "\n" ∧
    textItem n r = toString (n + 1) ++ ". " ++ jsToString (jsOr (jsGet r "title") (.str "Untitled"))
      ++ "\n   " ++ jsToString (jsOr (jsGet r "url") (.str ""))
      ++ "\n   " ++ jsToString (jsOr (jsGet r "description") (.str ""))
      ++ "\n   " ∧
    htmlItem r = "<li><strong>" ++ jsToString (jsOr (jsGet r "title") (.str "Untitled"))
      ++ "</strong><br>\n           <a href=\"" ++ jsToString (jsOr (jsGet r "url") (.str ""))
      ++ "\">" ++ jsToString (jsOr (jsGet r "url") (.str ""))
      ++ "</a><br>\n           " ++ jsToString (jsOr (jsGet r "description") (.str ""))
      ++ "<br>\n           " ++ "</li>" ∧
    mdItem n s = toString (n + 1) ++ ". **" ++ jsToString (jsOr (jsGet s "title") (.str "Untitled"))
      ++ "**\n   " ++ jsToString (jsOr (jsGet s "url") (.str ""))
      ++ "\n   " ++ jsToString (jsOr (jsGet s "description") (.str ""))
      ++ "\n   " ++ "Date: 2024-01-01" ++ "\n" := by
  have hdr : datePart r = "" := by simp [datePart, hr, jsTruthy]
  have hds : datePart s = "Date: 2024-01-01" := by simp [datePart, hs, jsTruthy, jsToString]
  refine ⟨hdr, hds, ?_, ?_, ?_, ?_⟩
  · simp [mdItem, hdr]
  · simp [textItem, hdr]
  · simp [htmlItem, hdr]
  · simp [mdItem, hds]

/-- C2 witness: the amended statement evaluated at the two concrete
items, with and without a date. -/
theorem search_date_line_rendering_witness :
    datePart itemND = "" ∧
    datePart itemD = "Date: 2024-01-01" ∧
    mdItem 0 itemND = "1. **T**\n   https://e.x\n   d\n   \n" ∧
    textItem 0 itemND = "1. T\n   https://e.x\n   d\n   " ∧
    htmlItem itemND =
      "<li><strong>T</strong><br>\n           <a href=\"https://e.x\">https://e.x</a><br>\n           d<br>\n           </li>" ∧
    mdItem 0 itemD = "1. **T**\n   https://e.x\n   d\n   Date: 2024-01-01\n" :=
  search_date_line_rendering itemND itemD 0 rfl rfl

/-- C3: the reader with useReaderLM false still builds an X-Respond-With
entry — its value is the undefined value, which the fetch layer
stringifies, so the header is not omitted from the outbound request; with
useReaderLM true the value is readerlm-v2 as claimed. -/
theorem reader_respond_with_entry_when_disabled :
    hfind (readerHeaders rargsEx none) "X-Respond-With" = some none ∧
    hfind (readerHeaders rargsLM none) "X-Respond-With" = some (some "readerlm-v2") :=
  ⟨rfl, rfl⟩

/-- C4 counterexample: a 2xx body whose nested content field is present
but empty does not yield that field; the empty string is falsy, so the
handler falls back to the pretty-printed JSON of the whole body.  And a
2xx body parsing to null, whose content field is absent, does not yield
the pretty-printed fallback (which would be the text null) either: the
data property access throws and the handler returns an isError
envelope. -/
theorem reader_present_empty_content_cex :
    jinaReader rargsEx none
        (.resp 200 "\x7b\"data\":\x7b\"content\":\"\"\x7d\x7d" (.ok emptyContentData)) =
      { text := .str "\x7b\n  \"data\": \x7b\n    \"content\": \"\"\n  \x7d\n\x7d", isError := none } ∧
    "\x7b\n  \"data\": \x7b\n    \"content\": \"\"\n  \x7d\n\x7d" ≠ "" ∧
    jinaReader rargsEx none (.resp 200 "null" (.ok .null)) =
      { text := .str "Error: Cannot read properties of null (reading 'data')",
        isError := some true } ∧
    jsonStringify2 .null = "null" :=
  ⟨rfl, by decide, rfl, rfl⟩

/-- C4 amended: for a 2xx response whose parsed JSON body is not null,
the returned text is the nested content field when that field is present
with a truthy value, and otherwise the whole body pretty-printed with
two-space indentation; the stubbed Hello body yields exactly Hello.  A
null body instead raises a property-access error caught as an isError
envelope, and a present-but-falsy content (such as the empty string)
takes the pretty-printed fallback. -/
theorem reader_success_text_rendering (args : ReaderArgs) (env : Option String)
    (status : Nat) (body : String) (hok : statusOk status = true)
    (data : Json) (hnn : data ≠ .null) :
    (jsTruthy (contentOf data) = true →
      jinaReader args env (.resp status body (.ok data)) =
        { text := contentOf data, isError := none }) ∧
    (jsTruthy (contentOf data) = false →
      jinaReader args env (.resp status body (.ok data)) =
        { text := .str (jsonStringify2 data), isError := none }) ∧
    jinaReader args env (.resp status body (.ok helloData)) =
      { text := .str "Hello", isError := none } ∧
    jinaReader args env (.resp status body (.ok .null)) =
      { text := .str "Error: Cannot read properties of null (reading 'data')",
        isError := some true } := by
  refine ⟨?_, ?_, ?_, ?_⟩
  · intro ht
    cases data with
    | null => exact absurd rfl hnn
    | _ => simp_all [jinaReader, readerText, jsOr, hok]
  · intro hf
    cases data with
    | null => exact absurd rfl hnn
    | _ => simp_all [jinaReader, readerText, jsOr, hok]
  · simp [jinaReader, readerText, hok, helloData, contentOf, jsGet, jsOr, jsTruthy, List.lookup]
  · simp [jinaReader, readerText, hok, errEnv]

/-- C4 witness: the stubbed upstream body with nested content Hello
yields output text exactly Hello, and a body parsing to null yields the
isError envelope. -/
theorem reader_success_text_rendering_witness :
    jsTruthy (contentOf helloData) = true ∧
    jinaReader rargsEx none (.resp 200 "" (.ok helloData)) =
      { text := .str "Hello", isError := none } ∧
    jinaReader rargsEx none (.resp 200 "null" (.ok .null)) =
      { text := .str "Error: Cannot read properties of null (reading 'data')",
        isError := some true } :=
  ⟨rfl, (reader_success_text_rendering rargsEx none 200 "" rfl helloData
    (fun h => Json.noConfusion h)).1 rfl,
   (reader_success_text_rendering rargsEx none 200 "null" rfl helloData
    (fun h => Json.noConfusion h)).2.2.2⟩

/-- C6: with no configured credential both tools send no Authorization
entry at all, and with a non-empty credential v both send exactly
Authorization Bearer v. -/
theorem authorization_header_exact (rargs : ReaderArgs) (sargs : SearchArgs)
    (v : String) (hv : v ≠ "") :
    hfind (readerHeaders rargs none) "Authorization" = none ∧
    hfind (searchHeaders sargs none) "Authorization" = none ∧
    hfind (readerHeaders rargs (some v)) "Authorization" = some (some ("Bearer " ++ v)) ∧
    hfind (searchHeaders sargs (some v)) "Authorization" = some (some ("Bearer " ++ v)) := by
  have hkey : getJinaApiKey (some v) = some v := by simp [getJinaApiKey, hv]
  refine ⟨?_, ?_, ?_, ?_⟩
  · rw [readerHeaders, createHeaders_unset _ none rfl]; exact readerBase_no_auth rargs
  · rw [searchHeaders, createHeaders_unset _ none rfl]; exact searchBase_no_auth sargs
  · rw [readerHeaders, createHeaders_set _ _ v hkey]; exact hfind_hset_same _ _ _
  · rw [searchHeaders, createHeaders_set _ _ v hkey]; exact hfind_hset_same _ _ _

/-- C6 witness: the exact Authorization entries of both tools with the
credential unset and with the credential secret-key. -/
theorem authorization_header_exact_witness :
    hfind (readerHeaders rargsEx none) "Authorization" = none ∧
    hfind (searchHeaders sargsEx none) "Authorization" = none ∧
    hfind (readerHeaders rargsEx (some "secret-key")) "Authorization" = some (some "Bearer secret-key") ∧
    hfind (searchHeaders sargsEx (some "secret-key")) "Authorization" = some (some "Bearer secret-key") :=
  authorization_header_exact rargsEx sargsEx "secret-key" (by decide)

/-- C7: the header builder returns the input record itself when the
credential resolver yields null, and otherwise a record carrying
Authorization Bearer v and agreeing with the input on every other key;
the input, a pure value in this embedding, is never mutated. -/
theorem createHeaders_appends_only_authorization (base : Headers) (env : Option String) :
    (getJinaApiKey env = none → createHeaders env base = base) ∧
    (∀ v, getJinaApiKey env = some v →
      hfind (createHeaders env base) "Authorization" = some (some ("Bearer " ++ v)) ∧
      ∀ k, k ≠ "Authorization" → hfind (createHeaders env base) k = hfind base k) := by
  constructor
  · exact createHeaders_unset base env
  · intro v hv
    rw [createHeaders_set base env v hv]
    exact ⟨hfind_hset_same _ _ _, fun k hk => hfind_hset_other _ _ _ _ hk⟩

/-- C7 witness: on a one-entry base record with credential k, the output
carries the bearer entry and leaves the Accept entry intact. -/
theorem createHeaders_appends_only_authorization_witness :
    hfind (createHeaders (some "k") [("Accept", some "application/json")]) "Authorization" =
      some (some "Bearer k") ∧
    hfind (createHeaders (some "k") [("Accept", some "application/json")]) "Accept" =
      some (some "application/json") := by
  constructor
  · exact ((createHeaders_appends_only_authorization [("Accept", some "application/json")]
      (some "k")).2 "k" rfl).1
  · exact (((createHeaders_appends_only_authorization [("Accept", some "application/json")]
      (some "k")).2 "k" rfl).2 "Accept" (by decide)).trans rfl

/-- C9: an empty-string credential entry resolves to null and both tools
send no Authorization header, exactly as when the entry is unset. -/
theorem empty_api_key_behaves_as_unset (rargs : ReaderArgs) (sargs : SearchArgs) :
    getJinaApiKey (some "") = none ∧
    readerHeaders rargs (some "") = readerHeaders rargs none ∧
    searchHeaders sargs (some "") = searchHeaders sargs none ∧
    hfind (readerHeaders rargs (some "")) "Authorization" = none ∧
    hfind (searchHeaders sargs (some "")) "Authorization" = none := by
  refine ⟨rfl, rfl, rfl, ?_, ?_⟩
  · rw [readerHeaders, createHeaders_unset _ (some "") rfl]; exact readerBase_no_auth rargs
  · rw [searchHeaders, createHeaders_unset _ (some "") rfl]; exact searchBase_no_auth sargs

/-- C10 counterexample: a 2xx body parsing to null certainly has no data
array, yet the handler returns an isError envelope (the data property
access on null throws), not the claimed non-error empty rendering. -/
theorem search_null_body_error_cex :
    (jinaSearch sargsEx none (.resp 200 "null" (.ok .null))).isError = some true :=
  rfl

/-- C10 amended: for a 2xx body parsing to a non-null value whose data
member is absent or the empty array, the handler returns a non-error
envelope (isError not set) whose text is empty under the markdown and
text renderers and an empty ol element under html; a null body instead
yields an isError envelope. -/
theorem search_empty_results_rendering (args : SearchArgs) (env : Option String)
    (status : Nat) (body : String) (hok : statusOk status = true) (data : Json)
    (h : jsGet data "data" = .undefined ∨ jsGet data "data" = .arr [])
    (hnn : data ≠ .null) :
    jinaSearch args env (.resp status body (.ok data)) =
      { text := .str (match args.returnFormat with
          | .html => "<ol></ol>"
          | _ => ""), isError := none } := by
  have hres : jsOr (jsGet data "data") (.arr []) = .arr [] := by
    rcases h with h | h <;> simp [jsOr, h, jsTruthy]
  have htext : searchText args data = .ok (formatResults args.returnFormat []) := by
    cases data with
    | null => exact absurd rfl hnn
    | _ => simp_all [searchText, truncateResults]
  have hfmt : formatResults args.returnFormat [] = (match args.returnFormat with
      | .html => "<ol></ol>"
      | _ => "") := by
    cases args.returnFormat <;> rfl
  simp [jinaSearch, hok, htext, hfmt]

/-- C10 witness: a body whose data member is the empty array yields the
empty ol element under the html renderer, with no isError field. -/
theorem search_empty_results_rendering_witness :
    jinaSearch { query := "q", returnFormat := .html } none
        (.resp 200 "" (.ok (.obj [("data", .arr [])]))) =
      { text := .str "<ol></ol>", isError := none } :=
  search_empty_results_rendering { query := "q", returnFormat := .html } none 200 "" rfl
    (.obj [("data", .arr [])]) (Or.inr rfl) (fun h => Json.noConfusion h)
